import Mathlib

/-!
Verification of the pcap-analyzer core engine against its specification.

The definitions below are a shallow embedding of the Rust sources
(src/libpcap-analyzer/src/tcp_reassembly.rs and
src/libpcap-analyzer/src/analyzer.rs).  Machine integers (u32 sequence
numbers) are represented as Nat reduced modulo 2^32 at every operation
that wraps in the source; byte buffers are lists of Nat; the plugin
registry side effects are represented by explicit event traces; log
macros that carry a gating decision are represented as warning strings,
other log calls are dropped.  Components of the repository whose sources
are not available (libpcap-tools FiveTuple, Flow, Duration arithmetic,
the flow_map and vxlan modules) are modelled from the specification and
marked as such in their doc comments.
-/

/-- Reduction modulo 2^32, the effect of arithmetic on u32. -/
def w32 (n : Nat) : Nat := n % 4294967296

/-- Wrapping subtraction on u32 values, as in Wrapping(a) - Wrapping(b). -/
def wsub (a b : Nat) : Nat := (a + (4294967296 - b % 4294967296)) % 4294967296

/-- TCP flag bits from pnet_packet::tcp::TcpFlags. -/
def TcpFlags.FIN : Nat := 1

def TcpFlags.SYN : Nat := 2

def TcpFlags.RST : Nat := 4

def TcpFlags.PSH : Nat := 8

def TcpFlags.ACK : Nat := 16

/-- Connection state of one TCP peer (enum TcpStatus in tcp_reassembly.rs). -/
inductive TcpStatus where
  | Closed
  | Listen
  | SynSent
  | SynRcv
  | Established
  | Closing
  | CloseWait
  | FinWait1
  | FinWait2
  | LastAck
  | TimeWait
deriving DecidableEq, Repr

/-- A queued TCP segment (struct TcpSegment).  Sequence fields are
relative, u32-reduced values; data is the byte payload. -/
structure TcpSegment where
  rel_seq : Nat
  rel_ack : Nat
  flags : Nat
  data : List Nat
  pcap_index : Nat
deriving DecidableEq, Repr

/-- One side of a TCP connection (struct TcpPeer).  The addr and port
fields of the source are debug-only (used only in log statements) and
are omitted. -/
structure TcpPeer where
  isn : Nat
  ian : Nat
  next_rel_seq : Nat
  last_rel_ack : Nat
  status : TcpStatus
  segments : List TcpSegment
deriving DecidableEq, Repr

/-- TcpPeer::new with zeroed counters. -/
def TcpPeer.new : TcpPeer :=
  { isn := 0, ian := 0, next_rel_seq := 0, last_rel_ack := 0,
    status := .Closed, segments := [] }

/-- TcpPeer::insert_sorted: insert a segment before the first queued
segment with a strictly larger rel_seq (plain unsigned comparison on
Wrapping u32 values), else push at the back. -/
def TcpPeer.insert_sorted : List TcpSegment → TcpSegment → List TcpSegment
  | [], s => [s]
  | item :: rest, s =>
    if s.rel_seq < item.rel_seq then s :: item :: rest
    else item :: TcpPeer.insert_sorted rest s

/-- queue_segment: segments with no data and no FIN are not queued;
the front-of-queue comparison in the source only logs. -/
def queue_segment (peer : TcpPeer) (segment : TcpSegment) : TcpPeer :=
  if segment.data.isEmpty ∧ segment.flags &&& TcpFlags.FIN = 0 then peer
  else { peer with segments := TcpPeer.insert_sorted peer.segments segment }

/-- A delivery of segment data to the transport-layer plugins
(registry.run_plugins_transport inside send_single_segment). -/
structure Emit where
  pcap_index : Nat
  data : List Nat
deriving DecidableEq, Repr

/-- send_single_segment: emit non-empty data to transport plugins and
advance next_rel_seq by the data length, plus one more if FIN is set.
The RST branch of the source only logs. -/
def send_single_segment (origin : TcpPeer) (segment : TcpSegment) :
    TcpPeer × List Emit :=
  let r : TcpPeer × List Emit :=
    if segment.data.isEmpty then (origin, [])
    else
      ({ origin with
          next_rel_seq := w32 (origin.next_rel_seq + w32 segment.data.length) },
        [{ pcap_index := segment.pcap_index, data := segment.data }])
  if segment.flags &&& TcpFlags.FIN ≠ 0 then
    ({ r.1 with next_rel_seq := w32 (r.1.next_rel_seq + 1) }, r.2)
  else r

theorem send_single_segment_segments (p : TcpPeer) (s : TcpSegment) :
    ((send_single_segment p s).1).segments = p.segments := by
  simp only [send_single_segment]
  split <;> split <;> rfl

/-- Measure used for termination of the delivery loop: total queued
data plus queue length. -/
def segsMeasure (l : List TcpSegment) : Nat :=
  (l.map (fun s => s.data.length + 1)).sum

theorem segsMeasure_insert_sorted (l : List TcpSegment) (s : TcpSegment) :
    segsMeasure (TcpPeer.insert_sorted l s)
      = segsMeasure l + (s.data.length + 1) := by
  induction l with
  | nil => simp [TcpPeer.insert_sorted, segsMeasure]
  | cons a t ih =>
    simp only [TcpPeer.insert_sorted]
    split
    · simp [segsMeasure]; omega
    · simp only [segsMeasure, List.map_cons, List.sum_cons] at *
      omega

/-- The while-let loop of send_peer_segments.  Pops queued segments in
order up to rel_ack; an ACK covering only part of the head segment
splits it, reinserting the suffix (with the original rel_seq, as the
source struct update syntax does) before emitting the popped part.
Every iteration strictly decreases segsMeasure, so the loop is driven
by a fuel counter that send_peer_segments seeds with the measure plus
one; sendLoop_fuel_irrelevant proves the zero-fuel base case is dead
code.  The branch for wsub rel_ack segment.rel_seq = 0 is unreachable
for u32-reduced states (the source, which only ever holds u32 values
there, cannot hit it either). -/
def sendLoop : Nat → TcpPeer → Nat → TcpPeer × List Emit
  | 0, origin, _ => (origin, [])
  | fuel + 1, origin, rel_ack =>
    match origin.segments with
    | [] => (origin, [])
    | segment :: rest =>
      if origin.next_rel_seq > rel_ack then (origin, [])
      else if rel_ack = segment.rel_seq then (origin, [])
      else
        let origin1 : TcpPeer := { origin with segments := rest }
        if rel_ack < segment.rel_seq then
          sendLoop fuel origin1 rel_ack
        else if rel_ack < w32 (segment.rel_seq + w32 segment.data.length) then
          if wsub rel_ack segment.rel_seq = 0 then (origin1, [])
          else
            let k := wsub rel_ack segment.rel_seq
            let headSeg : TcpSegment :=
              { segment with data := segment.data.take k }
            let tailSeg : TcpSegment :=
              { segment with data := segment.data.drop k, rel_ack := rel_ack }
            let origin2 : TcpPeer :=
              { origin1 with
                  segments := TcpPeer.insert_sorted origin1.segments tailSeg }
            let r1 := send_single_segment origin2 headSeg
            let r2 := sendLoop fuel r1.1 rel_ack
            (r2.1, r1.2 ++ r2.2)
        else
          let r1 := send_single_segment origin1 segment
          let r2 := sendLoop fuel r1.1 rel_ack
          (r2.1, r1.2 ++ r2.2)

/-- Any fuel beyond the measure of the queue yields the same result:
the loop always terminates by the break or empty-queue cases, never by
fuel exhaustion. -/
theorem sendLoop_fuel_irrelevant :
    ∀ (f g : Nat) (origin : TcpPeer) (rel_ack : Nat),
      segsMeasure origin.segments < f → segsMeasure origin.segments < g →
      sendLoop f origin rel_ack = sendLoop g origin rel_ack := by
  intro f
  induction f with
  | zero => intro g o r hf _; exact absurd hf (Nat.not_lt_zero _)
  | succ n ih =>
    intro g origin rel_ack hf hg
    cases g with
    | zero => exact absurd hg (Nat.not_lt_zero _)
    | succ m =>
      simp only [sendLoop]
      cases hsegs : origin.segments with
      | nil => rfl
      | cons segment rest =>
        have hmeas : segsMeasure origin.segments
            = segment.data.length + 1 + segsMeasure rest := by
          simp [hsegs, segsMeasure]
        by_cases h1 : origin.next_rel_seq > rel_ack
        · simp [h1]
        · by_cases h2 : rel_ack = segment.rel_seq
          · simp [h1, h2]
          · by_cases h3 : rel_ack < segment.rel_seq
            · simp only [if_neg h1, if_neg h2, if_pos h3]
              refine ih _ _ _ ?_ ?_
              · show segsMeasure rest < n
                omega
              · show segsMeasure rest < m
                omega
            · by_cases h4 :
                  rel_ack < w32 (segment.rel_seq + w32 segment.data.length)
              · by_cases h5 : wsub rel_ack segment.rel_seq = 0
                · simp [h1, h2, h3, h4, h5]
                · simp only [if_neg h1, if_neg h2, if_neg h3, if_pos h4,
                    if_neg h5]
                  have hlen : segment.data.length ≠ 0 := by
                    intro h0
                    rw [h0] at h4
                    simp only [w32] at h4
                    omega
                  have hk1 : 1 ≤ wsub rel_ack segment.rel_seq :=
                    Nat.one_le_iff_ne_zero.mpr h5
                  have hins : segsMeasure (TcpPeer.insert_sorted rest
                      ({ segment with
                          data := segment.data.drop
                            (wsub rel_ack segment.rel_seq),
                          rel_ack := rel_ack })) < segsMeasure origin.segments
                      := by
                    rw [segsMeasure_insert_sorted]
                    simp only [List.length_drop]
                    omega
                  rw [ih _ _ _ ?_ ?_]
                  · rw [send_single_segment_segments]
                    show segsMeasure (TcpPeer.insert_sorted rest _) < n
                    omega
                  · rw [send_single_segment_segments]
                    show segsMeasure (TcpPeer.insert_sorted rest _) < m
                    omega
              · simp only [if_neg h1, if_neg h2, if_neg h3, if_neg h4]
                rw [ih _ _ _ ?_ ?_]
                · rw [send_single_segment_segments]
                  show segsMeasure rest < n
                  omega
                · rw [send_single_segment_segments]
                  show segsMeasure rest < m
                  omega

/-- send_peer_segments: duplicate ACKs (rel_ack equal to last_rel_ack)
do nothing; otherwise run the delivery loop and record the ACK.  The
destination argument is only forwarded to send_single_segment, which
ignores it, so it is returned unchanged. -/
def send_peer_segments (origin destination : TcpPeer) (rel_ack : Nat) :
    TcpPeer × TcpPeer × List Emit :=
  if rel_ack = origin.last_rel_ack then (origin, destination, [])
  else
    let r := sendLoop (segsMeasure origin.segments + 1) origin rel_ack
    ({ r.1 with last_rel_ack := rel_ack }, destination, r.2)

/-- The fields of a parsed TCP header (pnet TcpPacket accessors) used by
the reassembler, with u32 sequence and acknowledgement numbers. -/
structure TcpView where
  sequence : Nat
  acknowledgement : Nat
  flags : Nat
  payload : List Nat
deriving DecidableEq, Repr

/-- Error cases of the reassembler (enum TcpStreamError). -/
inductive TcpStreamError where
  | Anomaly
  | Expired
  | HandshakeFailed
deriving DecidableEq, Repr

/-- A per-flow TCP stream (struct TcpStream): two peers, a stream-level
status and the timestamp of the last seen packet (microseconds). -/
structure TcpStream where
  client : TcpPeer
  server : TcpPeer
  status : TcpStatus
  last_seen_ts : Nat
deriving DecidableEq, Repr

/-- TcpStream::new for a fresh flow. -/
def TcpStream.new (last_seen : Nat) : TcpStream :=
  { client := TcpPeer.new, server := TcpPeer.new,
    status := .Closed, last_seen_ts := last_seen }

/-- The peer a packet originates from, per the to_server borrow split
used by every handler. -/
def TcpStream.originOf (s : TcpStream) (to_server : Bool) : TcpPeer :=
  if to_server then s.client else s.server

/-- The peer a packet is destined to. -/
def TcpStream.destOf (s : TcpStream) (to_server : Bool) : TcpPeer :=
  if to_server then s.server else s.client

/-- Write back the (origin, destination) pair chosen by to_server. -/
def TcpStream.packPeers (s : TcpStream) (to_server : Bool)
    (conn rev_conn : TcpPeer) : TcpStream :=
  if to_server then { s with client := conn, server := rev_conn }
  else { s with server := conn, client := rev_conn }

/-- TcpStream::handle_new_connection: the three-way-handshake state
machine.  The wildcard arm of the source is unreachable!(); SynRcv (a
state the update dispatcher can reach it with) falls into it, modelled
here as an Anomaly error with the stream unchanged. -/
def TcpStream.handle_new_connection (s : TcpStream) (tcp : TcpView)
    (to_server : Bool) : TcpStream × Except TcpStreamError Unit :=
  let seq := tcp.sequence
  let ack := tcp.acknowledgement
  let tcp_flags := tcp.flags
  let conn := s.originOf to_server
  let rev_conn := s.destOf to_server
  match conn.status with
  | .Closed =>
    if tcp_flags &&& TcpFlags.RST ≠ 0 then (s, .ok ())
    else if tcp_flags &&& TcpFlags.SYN = 0 then (s, .error .Anomaly)
    else
      let conn := { conn with isn := seq, next_rel_seq := 1, status := .SynSent }
      let rev_conn := { rev_conn with ian := seq, status := .Listen }
      ({ s.packPeers to_server conn rev_conn with status := .SynSent }, .ok ())
  | .Listen =>
    if ack ≠ w32 (rev_conn.isn + 1) then (s, .error .HandshakeFailed)
    else
      let conn := { conn with isn := seq, next_rel_seq := 1, status := .SynRcv }
      let rev_conn := { rev_conn with ian := seq, last_rel_ack := 1 }
      ({ s.packPeers to_server conn rev_conn with status := .SynRcv }, .ok ())
  | .SynSent =>
    if ack ≠ w32 (rev_conn.isn + 1) then (s, .error .HandshakeFailed)
    else
      let conn := { conn with status := .Established }
      let rev_conn :=
        { rev_conn with status := .Established, last_rel_ack := 1 }
      ({ s.packPeers to_server conn rev_conn with status := .Established },
        .ok ())
  | _ => (s, .error .Anomaly)

/-- TcpStream::handle_established_connection: queue the segment on the
origin, then, if the packet carries an ACK, deliver queued segments of
the destination up to rel_ack.  The source always returns Ok. -/
def TcpStream.handle_established_connection (s : TcpStream) (tcp : TcpView)
    (to_server : Bool) (pcap_index : Nat) : TcpStream × List Emit :=
  let origin := s.originOf to_server
  let destination := s.destOf to_server
  let rel_seq := wsub tcp.sequence origin.isn
  let rel_ack := wsub tcp.acknowledgement destination.isn
  let segment : TcpSegment :=
    { rel_seq := rel_seq, rel_ack := rel_ack, flags := tcp.flags,
      data := tcp.payload, pcap_index := pcap_index }
  let origin := queue_segment origin segment
  if tcp.flags &&& TcpFlags.ACK ≠ 0 then
    let r := send_peer_segments destination origin rel_ack
    (s.packPeers to_server r.2.1 r.1, r.2.2)
  else
    (s.packPeers to_server origin destination, [])

/-- TcpStream::handle_closing_connection: deliver ACKed segments first;
an RST drops the destination segments whose rel_ack matches rel_seq and
closes the origin; otherwise the segment is queued (even a bare FIN)
and an Established origin moves to FinWait1.  Always returns Ok. -/
def TcpStream.handle_closing_connection (s : TcpStream) (tcp : TcpView)
    (to_server : Bool) (pcap_index : Nat) : TcpStream × List Emit :=
  let origin := s.originOf to_server
  let destination := s.destOf to_server
  let rel_seq := wsub tcp.sequence origin.isn
  let rel_ack := wsub tcp.acknowledgement destination.isn
  let rDel :=
    if tcp.flags &&& TcpFlags.ACK ≠ 0 then
      send_peer_segments destination origin rel_ack
    else (destination, origin, [])
  let destination := rDel.1
  let origin := rDel.2.1
  let out := rDel.2.2
  if tcp.flags &&& TcpFlags.RST ≠ 0 then
    let destination :=
      { destination with
          segments := destination.segments.filter (fun seg => seg.rel_ack ≠ rel_seq) }
    let origin := { origin with status := .Closed }
    (s.packPeers to_server origin destination, out)
  else
    let segment : TcpSegment :=
      { rel_seq := rel_seq, rel_ack := rel_ack, flags := tcp.flags,
        data := tcp.payload, pcap_index := pcap_index }
    let origin := queue_segment origin segment
    let origin :=
      if origin.status = .Established then { origin with status := .FinWait1 }
      else origin
    (s.packPeers to_server origin destination, out)

/-- TcpStream::expire: force both peers to Closed. -/
def TcpStream.expire (s : TcpStream) : TcpStream :=
  { s with client := { s.client with status := .Closed },
           server := { s.server with status := .Closed } }

/-- The per-stream body of TcpStreamReassembly::update, after the entry
lookup: timestamps are microsecond counts and the delta uses truncating
natural subtraction (the Duration arithmetic of libpcap-tools is not
under src/ and is modelled from the spec, which only compares the
delta against the timeout).  If the delta exceeds the timeout the
stream is expired and the packet is not processed further; otherwise
last_seen_ts is updated and the packet is dispatched on the origin
status. -/
def TcpStream.updateStream (timeout : Nat) (stream : TcpStream)
    (flow_last_seen : Nat) (tcp : TcpView) (to_server : Bool)
    (pcap_index : Nat) : TcpStream × List Emit × Except TcpStreamError Unit :=
  if flow_last_seen - stream.last_seen_ts > timeout then
    (stream.expire, [], .error .Expired)
  else
    let stream := { stream with last_seen_ts := flow_last_seen }
    match (stream.originOf to_server).status with
    | .Closed | .Listen | .SynSent | .SynRcv =>
      let r := stream.handle_new_connection tcp to_server
      (r.1, [], r.2)
    | .Established =>
      if tcp.flags &&& (TcpFlags.FIN ||| TcpFlags.RST) ≠ 0 then
        let r := stream.handle_closing_connection tcp to_server pcap_index
        (r.1, r.2, .ok ())
      else
        let r := stream.handle_established_connection tcp to_server pcap_index
        (r.1, r.2, .ok ())
    | _ =>
      let r := stream.handle_closing_connection tcp to_server pcap_index
      (r.1, r.2, .ok ())

/-- The reassembler: a flow-id keyed map of streams and the idle
timeout (struct TcpStreamReassembly), the map as an association list. -/
structure TcpStreamReassembly where
  m : List (Nat × TcpStream)
  timeout : Nat
deriving DecidableEq, Repr

/-- Default with an empty map and a 120 second timeout (in
microseconds, Duration::new(120, 0)). -/
def TcpStreamReassembly.default : TcpStreamReassembly :=
  { m := [], timeout := 120 * 1000000 }

/-- Lookup in the association list map. -/
def assocFind (l : List (Nat × TcpStream)) (k : Nat) : Option TcpStream :=
  match l with
  | [] => none
  | e :: rest => if e.1 = k then some e.2 else assocFind rest k

/-- Replace a key in place, or insert it, mirroring the HashMap entry
slot the source obtains with entry().or_insert_with(). -/
def assocSet (l : List (Nat × TcpStream)) (k : Nat) (v : TcpStream) :
    List (Nat × TcpStream) :=
  match l with
  | [] => [(k, v)]
  | e :: rest => if e.1 = k then (k, v) :: rest else e :: assocSet rest k v

/-- The stream the entry API yields: the stored one, or a fresh stream
carrying the flow timestamp. -/
def TcpStreamReassembly.fetchStream (r : TcpStreamReassembly) (flow_id : Nat)
    (flow_last_seen : Nat) : TcpStream :=
  (assocFind r.m flow_id).getD (TcpStream.new flow_last_seen)

/-- TcpStreamReassembly::update: fetch (or create) the stream of the
flow, run the per-stream update, store the result back. -/
def TcpStreamReassembly.update (r : TcpStreamReassembly) (flow_id : Nat)
    (flow_last_seen : Nat) (tcp : TcpView) (to_server : Bool)
    (pcap_index : Nat) :
    TcpStreamReassembly × List Emit × Except TcpStreamError Unit :=
  let stream := r.fetchStream flow_id flow_last_seen
  let u := TcpStream.updateStream r.timeout stream flow_last_seen tcp
      to_server pcap_index
  ({ r with m := assocSet r.m flow_id u.1 }, u.2.1, u.2.2)

/-- The per-stream body of check_expired_connections: a stream stamped
in the future of now is skipped; a stream idle longer than the timeout
is expired. -/
def checkExpiredStream (timeout now : Nat) (s : TcpStream) : TcpStream :=
  if now < s.last_seen_ts then s
  else if now - s.last_seen_ts > timeout then s.expire
  else s

/-- TcpStreamReassembly::check_expired_connections applies the check to
every stream of the map. -/
def TcpStreamReassembly.check_expired_connections (r : TcpStreamReassembly)
    (now : Nat) : TcpStreamReassembly :=
  { r with m := r.m.map (fun e => (e.1, checkExpiredStream r.timeout now e.2)) }

/-- One packet fed to the reassembler: flow timestamp, parsed TCP
header, direction, pcap index. -/
structure TcpInput where
  flow_last_seen : Nat
  tcp : TcpView
  to_server : Bool
  pcap_index : Nat
deriving DecidableEq, Repr

/-- Drive a single stream through a packet sequence, collecting every
delivery to the transport plugins in order. -/
def runStream (timeout : Nat) (s : TcpStream) :
    List TcpInput → TcpStream × List Emit
  | [] => (s, [])
  | p :: rest =>
    let u := TcpStream.updateStream timeout s p.flow_last_seen p.tcp
        p.to_server p.pcap_index
    let r := runStream timeout u.1 rest
    (r.1, u.2.1 ++ r.2)

/-- Modelled from the spec: the FiveTuple of libpcap-tools (the crate
file is not under src/).  ThreeTuple fields (l3 proto as the EtherType,
addresses) plus ports and the l4 protocol; addresses are abstract
naturals. -/
structure FiveTuple where
  proto : Nat
  src : Nat
  dst : Nat
  src_port : Nat
  dst_port : Nat
  l4_proto : Nat
deriving DecidableEq, Repr

/-- FiveTuple::get_reverse swaps the addresses and the ports, keeping
both protocols. -/
def FiveTuple.get_reverse (t : FiveTuple) : FiveTuple :=
  { t with src := t.dst, dst := t.src,
           src_port := t.dst_port, dst_port := t.src_port }

theorem FiveTuple.get_reverse_involutive (t : FiveTuple) :
    t.get_reverse.get_reverse = t := rfl

/-- Modelled from the spec: the Flow record of libpcap-tools (not under
src/): a flow id, the canonical (first seen) five tuple and the first
and last seen timestamps (microseconds). -/
structure Pcap.Flow where
  flow_id : Nat
  five_tuple : FiveTuple
  first_seen : Nat
  last_seen : Nat
deriving DecidableEq, Repr

/-- Modelled from the spec: Flow::new records the tuple and stamps both
timestamps; the flow id is overwritten by the flow table right after
insertion (handle_l4_common), so its initial value is irrelevant and
taken as 0. -/
def Pcap.Flow.new (t : FiveTuple) (now : Nat) : Pcap.Flow :=
  { flow_id := 0, five_tuple := t, first_seen := now, last_seen := now }

/-- Modelled from the spec: the FlowMap of flow_map.rs (not under
src/), per spec section 4.4: a five-tuple to flow-id index, a flow-id
to Flow store, and a monotonic id allocator. -/
structure FlowMap where
  entries : List (FiveTuple × Nat)
  flows : List (Nat × Pcap.Flow)
  next_id : Nat
deriving DecidableEq, Repr

/-- The empty flow table. -/
def FlowMap.empty : FlowMap := { entries := [], flows := [], next_id := 0 }

/-- First-match lookup in the tuple index. -/
def lookupEntries : List (FiveTuple × Nat) → FiveTuple → Option Nat
  | [], _ => none
  | e :: rest, t => if e.1 = t then some e.2 else lookupEntries rest t

/-- Modelled from the spec: lookup_flow(5t). -/
def FlowMap.lookup_flow (m : FlowMap) (t : FiveTuple) : Option Nat :=
  lookupEntries m.entries t

/-- Modelled from the spec: insert_flow(5t, flow) first looks up
reverse(5t); if found, 5t is mapped to that same flow id (reverse
traffic attaches, the stored canonical flow stays); otherwise a fresh
id is allocated and both directions are installed. -/
def FlowMap.insert_flow (m : FlowMap) (t : FiveTuple) (f : Pcap.Flow) :
    FlowMap × Nat :=
  match m.lookup_flow t.get_reverse with
  | some id => ({ m with entries := (t, id) :: m.entries }, id)
  | none =>
    let id := m.next_id
    ({ entries := (t, id) :: (t.get_reverse, id) :: m.entries,
       flows := (id, f) :: m.flows,
       next_id := id + 1 }, id)

/-- Modelled from the spec: entry(id).and_modify(fn) applied to the
flow store. -/
def FlowMap.entry_and_modify (m : FlowMap) (id : Nat)
    (f : Pcap.Flow → Pcap.Flow) : FlowMap :=
  { m with flows := m.flows.map (fun e => if e.1 = id then (e.1, f e.2) else e) }

/-- The flows-modification section of handle_l4_common (analyzer.rs):
look the five tuple up; if absent create a Flow stamped with the packet
time and insert it; then overwrite the stored flow id with the map key
and refresh last_seen. -/
def flowSection (m : FlowMap) (t : FiveTuple) (now : Nat) : FlowMap × Nat :=
  let p :=
    match m.lookup_flow t with
    | some id => (m, id)
    | none => m.insert_flow t (Pcap.Flow.new t now)
  (p.1.entry_and_modify p.2
      (fun flow => { flow with flow_id := p.2, last_seen := now }), p.2)

/-- Fold the flow section of handle_l4_common over a packet sequence,
each packet reduced to its five tuple and timestamp. -/
def processPackets (m : FlowMap) : List (FiveTuple × Nat) → FlowMap
  | [] => m
  | (t, now) :: rest => processPackets (flowSection m t now).1 rest

/-- The flow table invariant: every stored flow is indexed under its
own tuple and the reverse tuple with its own id, ids are below the
allocator, and the tuple index is closed under reversal. -/
def FlowMap.Inv (m : FlowMap) : Prop :=
  (∀ p ∈ m.flows,
      p.2.flow_id = p.1 ∧
      m.lookup_flow p.2.five_tuple = some p.1 ∧
      m.lookup_flow p.2.five_tuple.get_reverse = some p.1 ∧
      p.1 < m.next_id) ∧
  (∀ t id, m.lookup_flow t = some id → m.lookup_flow t.get_reverse = some id)

theorem FlowMap.empty_inv : FlowMap.empty.Inv := by
  constructor
  · intro p hp; cases hp
  · intro t id h; cases h

theorem lookup_entry_and_modify (m : FlowMap) (id : Nat)
    (f : Pcap.Flow → Pcap.Flow) (x : FiveTuple) :
    (m.entry_and_modify id f).lookup_flow x = m.lookup_flow x := rfl

/-- Processing one packet five tuple preserves the flow table
invariant. -/
theorem flowSection_inv (m : FlowMap) (t : FiveTuple) (now : Nat)
    (h : m.Inv) : ((flowSection m t now).1).Inv := by
  obtain ⟨hflows, hsym⟩ := h
  unfold flowSection
  cases hlt : m.lookup_flow t with
  | some id =>
    simp only [hlt]
    refine ⟨?_, ?_⟩
    · intro p hp
      simp only [FlowMap.entry_and_modify, List.mem_map] at hp
      obtain ⟨q, hq, hpq⟩ := hp
      obtain ⟨h1, h2, h3, h4⟩ := hflows q hq
      by_cases hqid : q.1 = id
      · subst hpq
        simp only [hqid, if_pos rfl]
        exact ⟨rfl, by rw [lookup_entry_and_modify]; rw [← hqid]; exact h2,
          by rw [lookup_entry_and_modify]; rw [← hqid]; exact h3,
          by rw [← hqid]; exact h4⟩
      · subst hpq
        simp only [if_neg hqid]
        exact ⟨h1, by rw [lookup_entry_and_modify]; exact h2,
          by rw [lookup_entry_and_modify]; exact h3, h4⟩
    · intro s j hs
      rw [lookup_entry_and_modify] at hs ⊢
      exact hsym s j hs
  | none =>
    simp only [hlt, FlowMap.insert_flow]
    cases hrev : m.lookup_flow t.get_reverse with
    | some id =>
      exfalso
      have hx := hsym _ _ hrev
      rw [FiveTuple.get_reverse_involutive] at hx
      rw [hlt] at hx
      exact Option.noConfusion hx
    | none =>
      simp only
      have hkeep : ∀ x j, m.lookup_flow x = some j →
          lookupEntries ((t, m.next_id) :: (t.get_reverse, m.next_id) ::
            m.entries) x = some j := by
        intro x j hx
        have hxt : ¬t = x := by
          intro he; rw [← he] at hx; rw [hlt] at hx; exact Option.noConfusion hx
        have hxr : ¬t.get_reverse = x := by
          intro he; rw [← he] at hx; rw [hrev] at hx
          exact Option.noConfusion hx
        simpa [lookupEntries, hxt, hxr] using hx
      refine ⟨?_, ?_⟩
      · intro p hp
        simp only [FlowMap.entry_and_modify, List.mem_map, List.mem_cons] at hp
        obtain ⟨q, hq, hpq⟩ := hp
        rcases hq with hq | hq
        · -- the freshly inserted flow
          subst hpq
          rw [hq]
          simp only [if_pos rfl]
          refine ⟨rfl, ?_, ?_, Nat.lt_succ_self _⟩
          · show lookupEntries ((t, m.next_id) :: (t.get_reverse, m.next_id) ::
                m.entries) (Pcap.Flow.new t now).five_tuple = some m.next_id
            simp [Pcap.Flow.new, lookupEntries]
          · show lookupEntries ((t, m.next_id) :: (t.get_reverse, m.next_id) ::
                m.entries) (Pcap.Flow.new t now).five_tuple.get_reverse
                = some m.next_id
            by_cases hself : t = t.get_reverse
            · simp [Pcap.Flow.new, lookupEntries, ← hself]
            · simp [Pcap.Flow.new, lookupEntries, hself]
        · -- a previously stored flow
          obtain ⟨h1, h2, h3, h4⟩ := hflows q hq
          have hqid : ¬q.1 = m.next_id := Nat.ne_of_lt h4
          subst hpq
          simp only [if_neg hqid]
          exact ⟨h1, hkeep _ _ h2, hkeep _ _ h3, Nat.lt_succ_of_lt h4⟩
      · intro s j hs
        rw [lookup_entry_and_modify] at hs ⊢
        show lookupEntries ((t, m.next_id) :: (t.get_reverse, m.next_id) ::
          m.entries) s.get_reverse = some j
        simp only [FlowMap.lookup_flow] at hs
        by_cases hts : t = s
        · simp only [lookupEntries, if_pos hts] at hs
          obtain rfl : m.next_id = j := by injection hs
          by_cases hself : t = t.get_reverse
          · rw [← hts]
            simp [lookupEntries, ← hself]
          · rw [← hts]
            simp [lookupEntries, hself]
        · simp only [lookupEntries, if_neg hts] at hs
          by_cases hrs : t.get_reverse = s
          · obtain rfl : m.next_id = j := by
              rw [if_pos hrs] at hs; injection hs
            have : s.get_reverse = t := by
              rw [← hrs, FiveTuple.get_reverse_involutive]
            rw [this]
            simp [lookupEntries]
          · rw [if_neg hrs] at hs
            have hold := hsym s j hs
            have h1 : ¬t = s.get_reverse := by
              intro he
              apply hrs
              rw [he, FiveTuple.get_reverse_involutive]
            have h2 : ¬t.get_reverse = s.get_reverse := by
              intro he
              apply hts
              have := congrArg FiveTuple.get_reverse he
              rwa [FiveTuple.get_reverse_involutive,
                FiveTuple.get_reverse_involutive] at this
            simpa [lookupEntries, h1, h2] using hold

/-- The invariant holds after processing any packet sequence from the
empty table. -/
theorem processPackets_inv (pkts : List (FiveTuple × Nat)) (m : FlowMap)
    (h : m.Inv) : (processPackets m pkts).Inv := by
  induction pkts generalizing m with
  | nil => exact h
  | cons p rest ih =>
    obtain ⟨t, now⟩ := p
    exact ih _ (flowSection_inv m t now h)

/-- Under the invariant, a packet and its reverse are assigned the same
flow id by the flow section of handle_l4_common. -/
theorem flowSection_reverse_id (m : FlowMap) (hInv : m.Inv) (t : FiveTuple)
    (now now' : Nat) :
    (flowSection m t now).2 = (flowSection m t.get_reverse now').2 := by
  obtain ⟨_, hsym⟩ := hInv
  unfold flowSection
  cases hlt : m.lookup_flow t with
  | some id =>
    have h2 := hsym t id hlt
    simp [hlt, h2]
  | none =>
    have h2 : m.lookup_flow t.get_reverse = none := by
      cases hrev : m.lookup_flow t.get_reverse with
      | none => rfl
      | some j =>
        exfalso
        have hx := hsym _ _ hrev
        rw [FiveTuple.get_reverse_involutive] at hx
        rw [hlt] at hx
        exact Option.noConfusion hx
    simp [hlt, h2, FlowMap.insert_flow, FiveTuple.get_reverse_involutive]

/-- A first packet in direction t stores a flow whose canonical tuple
is t itself. -/
theorem flowSection_creates_canonical (m : FlowMap) (t : FiveTuple)
    (now : Nat) (hlt : m.lookup_flow t = none)
    (hrev : m.lookup_flow t.get_reverse = none) :
    (m.next_id,
      ({ flow_id := m.next_id, five_tuple := t, first_seen := now,
         last_seen := now } : Pcap.Flow)) ∈ ((flowSection m t now).1).flows := by
  unfold flowSection
  simp only [hlt, FlowMap.insert_flow, hrev]
  simp [FlowMap.entry_and_modify, Pcap.Flow.new]

/-- Later packets never change the canonical tuple stored for an
existing flow. -/
theorem flowSection_keeps_five_tuple (m : FlowMap) (t : FiveTuple)
    (now : Nat) (q : Nat × Pcap.Flow) (hq : q ∈ m.flows) :
    ∃ q' ∈ ((flowSection m t now).1).flows,
      q'.1 = q.1 ∧ q'.2.five_tuple = q.2.five_tuple := by
  unfold flowSection
  cases hlt : m.lookup_flow t with
  | some id =>
    refine ⟨if q.1 = id then (q.1, { q.2 with flow_id := id, last_seen := now })
      else q, ?_, ?_, ?_⟩
    · simp only [hlt, FlowMap.entry_and_modify, List.mem_map]
      exact ⟨q, hq, by split <;> simp_all⟩
    · split <;> rfl
    · split <;> rfl
  | none =>
    cases hrev : m.lookup_flow t.get_reverse with
    | some id =>
      refine ⟨if q.1 = id then (q.1, { q.2 with flow_id := id, last_seen := now })
        else q, ?_, ?_, ?_⟩
      · simp only [hlt, FlowMap.insert_flow, hrev, FlowMap.entry_and_modify,
          List.mem_map]
        exact ⟨q, hq, by split <;> simp_all⟩
      · split <;> rfl
      · split <;> rfl
    | none =>
      refine ⟨if q.1 = m.next_id
        then (q.1, { q.2 with flow_id := m.next_id, last_seen := now })
        else q, ?_, ?_, ?_⟩
      · simp only [hlt, FlowMap.insert_flow, hrev, FlowMap.entry_and_modify,
          List.mem_map, List.mem_cons]
        exact ⟨q, Or.inr hq, by split <;> simp_all⟩
      · split <;> rfl
      · split <;> rfl

/-- The L3 three tuple built by the dispatcher (struct ThreeTuple):
EtherType and the two addresses. -/
structure ThreeTuple where
  proto : Nat
  src : Nat
  dst : Nat
deriving DecidableEq, Repr

/-- struct L3Info: the l4 protocol and the three tuple. -/
structure L3Info where
  l4_proto : Nat
  three_tuple : ThreeTuple
deriving DecidableEq, Repr

/-- Observable actions of handle_l3_ipv4: the network-layer plugin
fan-out and the dispatch of a (possibly reassembled) payload to
handle_l3_common, which is where any L4 handling, flow creation and
flow update happens. -/
inductive L3Event where
  | networkPlugins (t3 : ThreeTuple) (l4_proto : Nat)
  | l4Dispatch (payload : List Nat) (info : L3Info)
deriving DecidableEq, Repr

def L3Event.isL4 : L3Event → Bool
  | .networkPlugins _ _ => false
  | .l4Dispatch _ _ => true

/-- The result of DefragEngine::update (enum Fragment). -/
inductive Fragment where
  | NoFrag (d : List Nat)
  | Complete (v : List Nat)
  | Incomplete
  | Error
deriving DecidableEq, Repr

/-- The defragmenter update call available to handle_l3_ipv4 for the
current packet: identification, fragment offset in bytes, the
more-fragments flag and the payload.  The engine itself (ip_defrag.rs)
is kept abstract behind this function type. -/
def DefragFn := Nat → Nat → Bool → List Nat → Fragment

/-- The header fields of a parsed IPv4 packet (pnet Ipv4Packet
accessors) together with the raw L3 byte slice it was parsed from. -/
structure Ipv4View where
  total_length : Nat
  header_length : Nat
  source : Nat
  destination : Nat
  next_level_protocol : Nat
  checksum : Nat
  identification : Nat
  flags : Nat
  fragment_offset : Nat
  data : List Nat
deriving DecidableEq, Repr

/-- The data slice after the padding trim of handle_l3_ipv4: re-sliced
to total_length when that is positive and shorter than the slice. -/
def ipv4EffectiveData (v : Ipv4View) : List Nat :=
  if v.total_length < v.data.length ∧ 0 < v.total_length then
    v.data.take v.total_length
  else v.data

/-- The L4 payload handed to the defragmenter: everything after the
IPv4 header (pnet payload) of the trimmed slice; in the TSO case
(total_length zero) the source computes the same offset by hand. -/
def ipv4Payload (v : Ipv4View) : List Nat :=
  (ipv4EffectiveData v).drop (v.header_length * 4)

/-- The more-fragments bit (Ipv4Flags::MoreFragments). -/
def ipv4MF (v : Ipv4View) : Bool := v.flags &&& 1 ≠ 0

/-- handle_l3_ipv4 (analyzer.rs): parse, trim padding, checksum check
(gated by do_checksums, warning only), network plugin fan-out, TSO
fallback, defragmenter consultation, then L4 dispatch unless the
defragmenter answered Incomplete or Error.  Parsing is abstracted to
the minimum-size check of pnet (20 bytes); the checksum computation is
a parameter standing for pnet ipv4 checksum.  Returns the events and
the emitted warnings, or the error the source propagates. -/
def handle_l3_ipv4 (do_checksums : Bool) (ipv4cks : Ipv4View → Nat)
    (defrag : DefragFn) (ethertype : Nat) (v : Ipv4View) :
    Except String (List L3Event × List String) :=
  if v.data.length < 20 then .error "Could not build IPv4 packet from data"
  else
    let data := ipv4EffectiveData v
    if data.length < 20 then .error "Could not build IPv4 packet from data"
    else
      let t3 : ThreeTuple :=
        { proto := ethertype, src := v.source, dst := v.destination }
      let l4_proto := v.next_level_protocol
      let cksWarns :=
        if do_checksums then
          if ipv4cks v ≠ v.checksum then ["IPv4: invalid checksum"] else []
        else []
      let netEv := [L3Event.networkPlugins t3 l4_proto]
      if v.total_length = 0 ∧ data.length < v.header_length * 4 then
        .ok (netEv, cksWarns ++
          ["IPv4: packet reported length is 0. Assuming TSO",
           "IPv4: ip_len == 0 and ipv4.get_header_length is invalid!"])
      else
        let tsoWarns :=
          if v.total_length = 0 then
            ["IPv4: packet reported length is 0. Assuming TSO"]
          else []
        let info : L3Info := { l4_proto := l4_proto, three_tuple := t3 }
        match defrag v.identification (v.fragment_offset * 8) (ipv4MF v)
            (ipv4Payload v) with
        | .NoFrag d => .ok (netEv ++ [.l4Dispatch d info], cksWarns ++ tsoWarns)
        | .Complete d =>
          .ok (netEv ++ [.l4Dispatch d info],
            cksWarns ++ tsoWarns ++ ["IPv4 defrag done, using defrag buffer"])
        | .Incomplete => .ok (netEv, cksWarns ++ tsoWarns)
        | .Error =>
          .ok (netEv, cksWarns ++ tsoWarns ++ ["IPv4 defragmentation error"])

/-- The events of a handler result, forgetting warnings. -/
def evtsOf (r : Except String (List L3Event × List String)) :
    Option (List L3Event) :=
  match r with
  | .ok p => some p.1
  | .error _ => none

/-- Parsed UDP header fields (pnet UdpPacket accessors). -/
structure UdpView where
  source : Nat
  destination : Nat
  payload : List Nat
deriving DecidableEq, Repr

/-- Observable actions of the L4 handlers: re-entering L2 on a
decapsulated inner frame, or calling handle_l4_common (plugin fan-out
and flow creation or update) with the fabricated ports. -/
inductive L4Event where
  | l2Redispatch (inner : List Nat)
  | l4Common (src_port dst_port : Nat) (l4_payload : Option (List Nat))
deriving DecidableEq, Repr

/-- handle_l4_udp together with handle_l4_vxlan (analyzer.rs): a source
or destination port of 4789 routes the UDP payload to the VXLAN
handler, which re-enters handle_l2 on the bytes after the VXLAN header
and never reaches handle_l4_common; otherwise handle_l4_common runs
with the UDP ports and payload.  The VXLAN header size (8 bytes, parse
failing on anything shorter) is modelled from the spec, the vxlan
module not being under src/. -/
def handle_l4_udp (udp : UdpView) : Except String (List L4Event) :=
  if udp.source = 4789 ∨ udp.destination = 4789 then
    if udp.payload.length < 8 then
      .error "Could not build Vxlan packet from data"
    else .ok [.l2Redispatch (udp.payload.drop 8)]
  else .ok [.l4Common udp.source udp.destination (some udp.payload)]

/-- Parsed ICMP header fields (pnet IcmpPacket accessors). -/
structure IcmpView where
  icmp_type : Nat
  icmp_code : Nat
  checksum : Nat
  payload : List Nat
deriving DecidableEq, Repr

/-- handle_l4_icmp (analyzer.rs): the checksum check runs only when
do_checksums is set (warning only), then handle_l4_common runs with the
ICMP type and code as the fabricated ports. -/
def handle_l4_icmp (do_checksums : Bool) (icmpcks : IcmpView → Nat)
    (icmp : IcmpView) : List L4Event × List String :=
  let warns :=
    if do_checksums then
      if icmpcks icmp ≠ icmp.checksum then ["ICMP: invalid checksum"] else []
    else []
  ([.l4Common icmp.icmp_type icmp.icmp_code (some icmp.payload)], warns)

/-- Parsed ICMPv6 header fields (pnet Icmpv6Packet accessors). -/
structure Icmpv6View where
  checksum : Nat
  payload : List Nat
deriving DecidableEq, Repr

/-- handle_l4_icmpv6 (analyzer.rs): the checksum check runs whenever
both addresses are IPv6 — the do_checksums flag is NOT consulted in
this handler (it is accepted here only to mirror the analyzer state the
source closes over) — then handle_l4_common runs with both fabricated
ports zero. -/
def handle_l4_icmpv6 (_do_checksums : Bool) (v6cks : Icmpv6View → Nat)
    (addrs_are_v6 : Bool) (icmp : Icmpv6View) : List L4Event × List String :=
  let warns :=
    if addrs_are_v6 then
      if v6cks icmp ≠ icmp.checksum then ["ICMPv6: invalid checksum"] else []
    else []
  ([.l4Common 0 0 (some icmp.payload)], warns)

/-- Modelled from the spec: the wrap-aware ordering the specification
prescribes for sequence comparisons, treating a forward modular
distance that is positive and at most 2^31 as strictly ahead. -/
def seqLtWindow (a b : Nat) : Bool :=
  decide (0 < wsub b a) && decide (wsub b a ≤ 2147483648)

/-- Modelled from the spec: insert_sorted as it would read with the
window comparison of the specification, for comparison against the
source TcpPeer.insert_sorted. -/
def insertSortedWindow : List TcpSegment → TcpSegment → List TcpSegment
  | [], s => [s]
  | item :: rest, s =>
    if seqLtWindow s.rel_seq item.rel_seq then s :: item :: rest
    else item :: insertSortedWindow rest s

/-- The peer state of spec scenario S5 right before the partial ACK: a
fully synchronized Established peer holding one queued 100-byte segment
at rel_seq 1 recorded from pcap index 4. -/
def s5Origin : TcpPeer :=
  { isn := 1000, ian := 0, next_rel_seq := 1, last_rel_ack := 1,
    status := .Established,
    segments := [{ rel_seq := 1, rel_ack := 1, flags := 24,
                   data := List.range 100, pcap_index := 4 }] }

/-- Spec scenario S6: handshake with a client ISN of 2^32 - 256, a
512-byte payload spanning the absolute sequence wrap, and the server
ACK of the wrapped end (absolute 257). -/
def s6pkts : List TcpInput :=
  [ { flow_last_seen := 0,
      tcp := { sequence := 4294967040, acknowledgement := 0, flags := 2,
               payload := [] },
      to_server := true, pcap_index := 1 },
    { flow_last_seen := 0,
      tcp := { sequence := 9000, acknowledgement := 4294967041, flags := 18,
               payload := [] },
      to_server := false, pcap_index := 2 },
    { flow_last_seen := 0,
      tcp := { sequence := 4294967041, acknowledgement := 9001, flags := 16,
               payload := [] },
      to_server := true, pcap_index := 3 },
    { flow_last_seen := 0,
      tcp := { sequence := 4294967041, acknowledgement := 9001, flags := 24,
               payload := List.range 512 },
      to_server := true, pcap_index := 4 },
    { flow_last_seen := 0,
      tcp := { sequence := 9001, acknowledgement := 257, flags := 16,
               payload := [] },
      to_server := false, pcap_index := 5 } ]

/-- A concrete five tuple for flow table witnesses. -/
def c1t : FiveTuple :=
  { proto := 2048, src := 1, dst := 2, src_port := 1000, dst_port := 53,
    l4_proto := 17 }

/-- C1: after any sequence of packets processed through the flow
section of handle_l4_common starting from an empty table, every stored
flow is indexed under both its canonical five tuple and the reverse
tuple with its own flow id; a packet in either direction is assigned
the same flow id; a first-seen direction creates a flow storing that
direction as canonical, and later packets never change a stored
canonical tuple. -/
theorem c1_flow_identity (pkts : List (FiveTuple × Nat)) (p : Nat × Pcap.Flow)
    (hp : p ∈ (processPackets FlowMap.empty pkts).flows) :
    (processPackets FlowMap.empty pkts).lookup_flow p.2.five_tuple
      = some p.2.flow_id ∧
    (processPackets FlowMap.empty pkts).lookup_flow
        p.2.five_tuple.get_reverse = some p.2.flow_id ∧
    (∀ t now now',
      (flowSection (processPackets FlowMap.empty pkts) t now).2
        = (flowSection (processPackets FlowMap.empty pkts)
            t.get_reverse now').2) ∧
    (∀ t now,
      (processPackets FlowMap.empty pkts).lookup_flow t = none →
        ((processPackets FlowMap.empty pkts).next_id,
          ({ flow_id := (processPackets FlowMap.empty pkts).next_id,
             five_tuple := t, first_seen := now, last_seen := now } : Pcap.Flow))
          ∈ ((flowSection (processPackets FlowMap.empty pkts) t now).1).flows) ∧
    (∀ t now, ∃ q ∈ ((flowSection (processPackets FlowMap.empty pkts)
        t now).1).flows, q.1 = p.1 ∧ q.2.five_tuple = p.2.five_tuple) := by
  have hInv := processPackets_inv pkts FlowMap.empty FlowMap.empty_inv
  obtain ⟨hflows, hsym⟩ := hInv
  obtain ⟨h1, h2, h3, _⟩ := hflows p hp
  refine ⟨by rw [h1]; exact h2, by rw [h1]; exact h3,
    fun t now now' => flowSection_reverse_id _ ⟨hflows, hsym⟩ t now now',
    fun t now hnone => ?_,
    fun t now => flowSection_keeps_five_tuple _ t now p hp⟩
  have hrev : (processPackets FlowMap.empty pkts).lookup_flow t.get_reverse
      = none := by
    cases hr : (processPackets FlowMap.empty pkts).lookup_flow t.get_reverse
      with
    | none => rfl
    | some j =>
      exfalso
      have hx := hsym _ _ hr
      rw [FiveTuple.get_reverse_involutive] at hx
      rw [hnone] at hx
      exact Option.noConfusion hx
  exact flowSection_creates_canonical _ t now hnone hrev

/-- C1 witness: a UDP packet and its reverse produce one flow, stored
under id 0 with the first packet direction as canonical tuple, and the
theorem applies to it. -/
theorem c1_flow_identity_witness :
    ((0, ({ flow_id := 0, five_tuple := c1t, first_seen := 5, last_seen := 7 }
        : Pcap.Flow))
      ∈ (processPackets FlowMap.empty
          [(c1t, 5), (c1t.get_reverse, 7)]).flows) ∧
    ((processPackets FlowMap.empty
        [(c1t, 5), (c1t.get_reverse, 7)]).lookup_flow
        ({ flow_id := 0, five_tuple := c1t, first_seen := 5, last_seen := 7 }
          : Pcap.Flow).five_tuple = some 0 ∧
      (processPackets FlowMap.empty
        [(c1t, 5), (c1t.get_reverse, 7)]).lookup_flow
        ({ flow_id := 0, five_tuple := c1t, first_seen := 5, last_seen := 7 }
          : Pcap.Flow).five_tuple.get_reverse = some 0 ∧
      (∀ t now now',
        (flowSection (processPackets FlowMap.empty
          [(c1t, 5), (c1t.get_reverse, 7)]) t now).2
          = (flowSection (processPackets FlowMap.empty
              [(c1t, 5), (c1t.get_reverse, 7)]) t.get_reverse now').2) ∧
      (∀ t now,
        (processPackets FlowMap.empty
          [(c1t, 5), (c1t.get_reverse, 7)]).lookup_flow t = none →
          ((processPackets FlowMap.empty
              [(c1t, 5), (c1t.get_reverse, 7)]).next_id,
            ({ flow_id := (processPackets FlowMap.empty
                [(c1t, 5), (c1t.get_reverse, 7)]).next_id,
               five_tuple := t, first_seen := now, last_seen := now }
              : Pcap.Flow))
            ∈ ((flowSection (processPackets FlowMap.empty
                [(c1t, 5), (c1t.get_reverse, 7)]) t now).1).flows) ∧
      (∀ t now, ∃ q ∈ ((flowSection (processPackets FlowMap.empty
          [(c1t, 5), (c1t.get_reverse, 7)]) t now).1).flows,
          q.1 = (0, ({ flow_id := 0, five_tuple := c1t, first_seen := 5,
                       last_seen := 7 } : Pcap.Flow)).1 ∧
          q.2.five_tuple = (0, ({ flow_id := 0, five_tuple := c1t,
                                  first_seen := 5,
                                  last_seen := 7 } : Pcap.Flow)).2.five_tuple)) :=
  ⟨by decide,
    c1_flow_identity [(c1t, 5), (c1t.get_reverse, 7)]
      (0, { flow_id := 0, five_tuple := c1t, first_seen := 5, last_seen := 7 })
      (by decide)⟩

/-- C2: evaluation of the code at the failing input of spec scenario
S5.  A partial ACK of 51 for a queued 100-byte segment at rel_seq 1
emits BOTH the 50-byte head and the 50-byte remainder at once (the
reinserted remainder keeps the original rel_seq, so the next loop
iteration pops and emits it), leaves nothing buffered and advances
next_rel_seq to 101, where the claim and the spec require only the
first 50 bytes to be emitted and the rest to stay queued. -/
theorem c2_partial_ack_split_eval :
    (send_peer_segments s5Origin TcpPeer.new 51).2.2
      = [{ pcap_index := 4, data := List.range 50 },
         { pcap_index := 4, data := (List.range 100).drop 50 }] ∧
    (send_peer_segments s5Origin TcpPeer.new 51).1.segments = [] ∧
    (send_peer_segments s5Origin TcpPeer.new 51).1.next_rel_seq = 101 ∧
    (send_peer_segments s5Origin TcpPeer.new 51).1.last_rel_ack = 51 := by
  decide

/-- C3: an ACK equal to the origin peer's last recorded relative ACK
delivers nothing and leaves both peers untouched. -/
theorem c3_duplicate_ack_idempotent (origin destination : TcpPeer)
    (rel_ack : Nat) (h : rel_ack = origin.last_rel_ack) :
    send_peer_segments origin destination rel_ack
      = (origin, destination, []) := by
  simp [send_peer_segments, h]

theorem c3_duplicate_ack_idempotent_witness :
    (1 : Nat) = ({ TcpPeer.new with last_rel_ack := 1 } : TcpPeer).last_rel_ack ∧
    send_peer_segments ({ TcpPeer.new with last_rel_ack := 1 } : TcpPeer)
        TcpPeer.new 1
      = (({ TcpPeer.new with last_rel_ack := 1 } : TcpPeer), TcpPeer.new, []) :=
  ⟨by decide, c3_duplicate_ack_idempotent _ _ _ (by decide)⟩

/-- C4: a packet arriving more than the timeout after the last seen
packet of its stream makes update expire the stream (both peers
Closed, everything else untouched), deliver nothing and return the
Expired error; the default timeout is 120 seconds. -/
theorem c4_stream_expiry (r : TcpStreamReassembly)
    (flow_id flow_last_seen : Nat) (tcp : TcpView) (ts : Bool) (idx : Nat)
    (h : flow_last_seen - (r.fetchStream flow_id flow_last_seen).last_seen_ts
        > r.timeout) :
    r.update flow_id flow_last_seen tcp ts idx
      = ({ r with m := assocSet r.m flow_id
                         ((r.fetchStream flow_id flow_last_seen).expire) },
         [], .error .Expired) ∧
    ((r.fetchStream flow_id flow_last_seen).expire).client.status = .Closed ∧
    ((r.fetchStream flow_id flow_last_seen).expire).server.status = .Closed ∧
    ((r.fetchStream flow_id flow_last_seen).expire).client.segments
      = (r.fetchStream flow_id flow_last_seen).client.segments ∧
    ((r.fetchStream flow_id flow_last_seen).expire).server.segments
      = (r.fetchStream flow_id flow_last_seen).server.segments ∧
    TcpStreamReassembly.default.timeout = 120 * 1000000 := by
  refine ⟨?_, rfl, rfl, rfl, rfl, rfl⟩
  simp [TcpStreamReassembly.update, TcpStream.updateStream, h]

theorem c4_stream_expiry_witness :
    (130000000 -
      (({ m := [(3, TcpStream.new 0)], timeout := 120000000 }
        : TcpStreamReassembly).fetchStream 3 130000000).last_seen_ts
      > ({ m := [(3, TcpStream.new 0)], timeout := 120000000 }
        : TcpStreamReassembly).timeout) ∧
    (({ m := [(3, TcpStream.new 0)], timeout := 120000000 }
        : TcpStreamReassembly).update 3 130000000
        { sequence := 5, acknowledgement := 0, flags := 2, payload := [] }
        true 9
      = ({ ({ m := [(3, TcpStream.new 0)], timeout := 120000000 }
            : TcpStreamReassembly) with
            m := assocSet [(3, TcpStream.new 0)] 3
              ((({ m := [(3, TcpStream.new 0)], timeout := 120000000 }
                : TcpStreamReassembly).fetchStream 3 130000000).expire) },
         [], .error .Expired) ∧
      ((({ m := [(3, TcpStream.new 0)], timeout := 120000000 }
        : TcpStreamReassembly).fetchStream 3 130000000).expire).client.status
        = .Closed ∧
      ((({ m := [(3, TcpStream.new 0)], timeout := 120000000 }
        : TcpStreamReassembly).fetchStream 3 130000000).expire).server.status
        = .Closed ∧
      ((({ m := [(3, TcpStream.new 0)], timeout := 120000000 }
        : TcpStreamReassembly).fetchStream 3 130000000).expire).client.segments
        = ((({ m := [(3, TcpStream.new 0)], timeout := 120000000 }
          : TcpStreamReassembly).fetchStream 3 130000000)).client.segments ∧
      ((({ m := [(3, TcpStream.new 0)], timeout := 120000000 }
        : TcpStreamReassembly).fetchStream 3 130000000).expire).server.segments
        = ((({ m := [(3, TcpStream.new 0)], timeout := 120000000 }
          : TcpStreamReassembly).fetchStream 3 130000000)).server.segments ∧
      TcpStreamReassembly.default.timeout = 120 * 1000000) :=
  ⟨by decide, c4_stream_expiry _ _ _ _ _ _ (by decide)⟩

/-- C5: from a Closed origin, a SYN without RST records the absolute
sequence number as the origin ISN, sets next_rel_seq to 1, mirrors the
ISN into the peer IAN, moves origin to SynSent, peer to Listen and the
stream to SynSent, returning Ok. -/
theorem c5_syn_transition (s : TcpStream) (tcp : TcpView) (ts : Bool)
    (h1 : (s.originOf ts).status = .Closed)
    (h2 : tcp.flags &&& TcpFlags.RST = 0)
    (h3 : tcp.flags &&& TcpFlags.SYN ≠ 0) :
    (s.handle_new_connection tcp ts).2 = .ok () ∧
    ((s.handle_new_connection tcp ts).1.originOf ts).isn = tcp.sequence ∧
    ((s.handle_new_connection tcp ts).1.originOf ts).next_rel_seq = 1 ∧
    ((s.handle_new_connection tcp ts).1.destOf ts).ian = tcp.sequence ∧
    ((s.handle_new_connection tcp ts).1.originOf ts).status = .SynSent ∧
    ((s.handle_new_connection tcp ts).1.destOf ts).status = .Listen ∧
    (s.handle_new_connection tcp ts).1.status = .SynSent := by
  cases ts <;>
    simp_all [TcpStream.handle_new_connection, TcpStream.originOf,
      TcpStream.destOf, TcpStream.packPeers]

theorem c5_syn_transition_witness :
    (((TcpStream.new 0).originOf true).status = .Closed ∧
      ({ sequence := 1000, acknowledgement := 0, flags := 2, payload := [] }
        : TcpView).flags &&& TcpFlags.RST = 0 ∧
      ({ sequence := 1000, acknowledgement := 0, flags := 2, payload := [] }
        : TcpView).flags &&& TcpFlags.SYN ≠ 0) ∧
    (((TcpStream.new 0).handle_new_connection
        { sequence := 1000, acknowledgement := 0, flags := 2, payload := [] }
        true).2 = .ok () ∧
      (((TcpStream.new 0).handle_new_connection
        { sequence := 1000, acknowledgement := 0, flags := 2, payload := [] }
        true).1.originOf true).isn = 1000 ∧
      (((TcpStream.new 0).handle_new_connection
        { sequence := 1000, acknowledgement := 0, flags := 2, payload := [] }
        true).1.originOf true).next_rel_seq = 1 ∧
      (((TcpStream.new 0).handle_new_connection
        { sequence := 1000, acknowledgement := 0, flags := 2, payload := [] }
        true).1.destOf true).ian = 1000 ∧
      (((TcpStream.new 0).handle_new_connection
        { sequence := 1000, acknowledgement := 0, flags := 2, payload := [] }
        true).1.originOf true).status = .SynSent ∧
      (((TcpStream.new 0).handle_new_connection
        { sequence := 1000, acknowledgement := 0, flags := 2, payload := [] }
        true).1.destOf true).status = .Listen ∧
      ((TcpStream.new 0).handle_new_connection
        { sequence := 1000, acknowledgement := 0, flags := 2, payload := [] }
        true).1.status = .SynSent) :=
  ⟨⟨by decide, by decide, by decide⟩,
    c5_syn_transition _ _ _ (by decide) (by decide) (by decide)⟩

/-- C6: whenever the IPv4 defragmenter answers Incomplete or Error for
a packet that parses and is not rejected by the TSO length check,
handle_l3_ipv4 returns Ok having produced only the network-layer
plugin event: no L4 dispatch happens, hence no flow is created or
updated for that packet. -/
theorem c6_defrag_gating (b : Bool) (cks : Ipv4View → Nat)
    (defrag : DefragFn) (eth : Nat) (v : Ipv4View)
    (h1 : ¬v.data.length < 20)
    (h2 : ¬(ipv4EffectiveData v).length < 20)
    (h3 : ¬(v.total_length = 0 ∧
        (ipv4EffectiveData v).length < v.header_length * 4))
    (h4 : defrag v.identification (v.fragment_offset * 8) (ipv4MF v)
          (ipv4Payload v) = Fragment.Incomplete ∨
        defrag v.identification (v.fragment_offset * 8) (ipv4MF v)
          (ipv4Payload v) = Fragment.Error) :
    ∃ w, handle_l3_ipv4 b cks defrag eth v
      = .ok ([.networkPlugins
          { proto := eth, src := v.source, dst := v.destination }
          v.next_level_protocol], w) := by
  rcases h4 with h4 | h4
  · exact ⟨(if b then if cks v = v.checksum then []
        else ["IPv4: invalid checksum"] else []) ++
      (if v.total_length = 0 then
        ["IPv4: packet reported length is 0. Assuming TSO"] else []),
      by simp [handle_l3_ipv4, h1, h2, h3, h4]⟩
  · exact ⟨(if b then if cks v = v.checksum then []
        else ["IPv4: invalid checksum"] else []) ++
      ((if v.total_length = 0 then
        ["IPv4: packet reported length is 0. Assuming TSO"] else []) ++
       ["IPv4 defragmentation error"]),
      by simp [handle_l3_ipv4, h1, h2, h3, h4]⟩

/-- A concrete IPv4 first-fragment view for the C6 witness: 20 bytes,
more-fragments set, offset 0. -/
def c6v : Ipv4View :=
  { total_length := 20, header_length := 5, source := 1, destination := 2,
    next_level_protocol := 6, checksum := 0, identification := 42,
    flags := 1, fragment_offset := 0, data := List.replicate 20 0 }

theorem c6_defrag_gating_witness :
    (¬c6v.data.length < 20 ∧ ¬(ipv4EffectiveData c6v).length < 20 ∧
      ¬(c6v.total_length = 0 ∧
        (ipv4EffectiveData c6v).length < c6v.header_length * 4) ∧
      ((fun _ _ _ _ => Fragment.Incomplete : DefragFn) c6v.identification
          (c6v.fragment_offset * 8) (ipv4MF c6v) (ipv4Payload c6v)
        = Fragment.Incomplete ∨
       (fun _ _ _ _ => Fragment.Incomplete : DefragFn) c6v.identification
          (c6v.fragment_offset * 8) (ipv4MF c6v) (ipv4Payload c6v)
        = Fragment.Error)) ∧
    ∃ w, handle_l3_ipv4 true (fun _ => 0)
        (fun _ _ _ _ => Fragment.Incomplete) 2048 c6v
      = .ok ([.networkPlugins
          { proto := 2048, src := c6v.source, dst := c6v.destination }
          c6v.next_level_protocol], w) :=
  ⟨⟨by decide, by decide, by decide, Or.inl rfl⟩,
    c6_defrag_gating true (fun _ => 0) (fun _ _ _ _ => Fragment.Incomplete)
      2048 c6v (by decide) (by decide) (by decide) (Or.inl rfl)⟩

/-- C7: a UDP packet with source or destination port 4789 whose payload
holds at least the 8-byte VXLAN header is decapsulated: the inner frame
after the header is re-dispatched at L2, and the handler result holds
no handle_l4_common event, so transport plugins never see the outer UDP
packet and no flow is created for its tuple. -/
theorem c7_vxlan_decap (udp : UdpView)
    (hport : udp.source = 4789 ∨ udp.destination = 4789)
    (hlen : ¬udp.payload.length < 8) :
    handle_l4_udp udp = .ok [.l2Redispatch (udp.payload.drop 8)] := by
  simp only [handle_l4_udp, if_pos hport, if_neg hlen]

theorem c7_vxlan_decap_witness :
    (((⟨40000, 4789, List.range 30⟩ : UdpView).source = 4789 ∨
      (⟨40000, 4789, List.range 30⟩ : UdpView).destination = 4789) ∧
      ¬(⟨40000, 4789, List.range 30⟩ : UdpView).payload.length < 8) ∧
    handle_l4_udp ⟨40000, 4789, List.range 30⟩
      = .ok [.l2Redispatch ((List.range 30).drop 8)] :=
  ⟨⟨Or.inr rfl, by decide⟩,
    c7_vxlan_decap ⟨40000, 4789, List.range 30⟩ (Or.inr rfl) (by decide)⟩

/-- C8 counterexample: the source orders segments with the plain
unsigned comparison of Wrapping u32, not with the window comparison of
the specification: inserting a segment at rel_seq 2^32 - 1 into a queue
holding rel_seq 0 puts it at the back, where the window comparison
(forward distance 1, hence ahead) puts it at the front. -/
theorem c8_plain_not_window_comparison :
    TcpPeer.insert_sorted
        [{ rel_seq := 0, rel_ack := 0, flags := 0, data := [7],
           pcap_index := 0 }]
        { rel_seq := 4294967295, rel_ack := 0, flags := 0, data := [9],
          pcap_index := 1 }
      ≠ insertSortedWindow
        [{ rel_seq := 0, rel_ack := 0, flags := 0, data := [7],
           pcap_index := 0 }]
        { rel_seq := 4294967295, rel_ack := 0, flags := 0, data := [9],
          pcap_index := 1 } := by decide

set_option maxRecDepth 100000 in
/-- C8 amended: sequence comparisons are plain unsigned comparisons on
ISN-relative values computed with wrapping subtraction; this keeps
delivery correct across the absolute 2^32 sequence boundary: in spec
scenario S6 (ISN 2^32 - 256, 512 bytes spanning the wrap) the whole
payload is delivered as one contiguous segment and last_rel_ack
advances from 1 to 513 with no regression. -/
theorem c8_wrap_relative_delivery :
    (runStream 120000000 (TcpStream.new 0) s6pkts).2
      = [{ pcap_index := 4, data := List.range 512 }] ∧
    (runStream 120000000 (TcpStream.new 0) s6pkts).1.client.next_rel_seq
      = 513 ∧
    (runStream 120000000 (TcpStream.new 0) s6pkts).1.client.last_rel_ack
      = 513 ∧
    (runStream 120000000 (TcpStream.new 0) s6pkts).1.status
      = .Established := by decide

/-- C9 counterexample: the ICMPv6 checksum warning is not suppressed by
disabling do_checksums: with the flag off (and equally with it on), a
mismatching ICMPv6 checksum still produces the warning, because the
source never consults the flag in handle_l4_icmpv6. -/
theorem c9_icmpv6_not_gated :
    (handle_l4_icmpv6 false (fun _ => 1) true
        { checksum := 0, payload := [] }).2 = ["ICMPv6: invalid checksum"] ∧
    (handle_l4_icmpv6 true (fun _ => 1) true
        { checksum := 0, payload := [] }).2 = ["ICMPv6: invalid checksum"] := by
  decide

/-- C9 amended: the do_checksums setting never changes which events the
checksum-consulting handlers produce; it only suppresses the IPv4 and
ICMP checksum-mismatch warnings; ICMPv6 checksums are validated and
warned regardless of the flag. -/
theorem c9_checksum_gating (cks : Ipv4View → Nat) (defrag : DefragFn)
    (eth : Nat) (v : Ipv4View) (icks : IcmpView → Nat) (iv : IcmpView)
    (b b' : Bool) (v6cks : Icmpv6View → Nat) (isv6 : Bool)
    (v6 : Icmpv6View) :
    evtsOf (handle_l3_ipv4 b cks defrag eth v)
      = evtsOf (handle_l3_ipv4 b' cks defrag eth v) ∧
    (handle_l4_icmp b icks iv).1 = (handle_l4_icmp b' icks iv).1 ∧
    (handle_l4_icmp false icks iv).2 = [] ∧
    handle_l4_icmpv6 b v6cks isv6 v6 = handle_l4_icmpv6 b' v6cks isv6 v6 ∧
    (∀ e w, handle_l3_ipv4 false cks defrag eth v = .ok (e, w) →
      "IPv4: invalid checksum" ∉ w) := by
  refine ⟨?_, rfl, rfl, rfl, ?_⟩
  · by_cases c1 : v.data.length < 20
    · simp [handle_l3_ipv4, c1]
    · by_cases c2 : (ipv4EffectiveData v).length < 20
      · simp [handle_l3_ipv4, c1, c2, evtsOf]
      · by_cases c3 : v.total_length = 0 ∧
            (ipv4EffectiveData v).length < v.header_length * 4
        · simp [handle_l3_ipv4, c1, c2, c3, evtsOf]
        · cases hd : defrag v.identification (v.fragment_offset * 8)
              (ipv4MF v) (ipv4Payload v) <;>
            simp [handle_l3_ipv4, c1, c2, c3, hd, evtsOf]
  · intro e w hw
    by_cases c1 : v.data.length < 20
    · simp [handle_l3_ipv4, c1] at hw
    · by_cases c2 : (ipv4EffectiveData v).length < 20
      · simp [handle_l3_ipv4, c1, c2] at hw
      · by_cases c3 : v.total_length = 0 ∧
            (ipv4EffectiveData v).length < v.header_length * 4
        · simp [handle_l3_ipv4, c1, c2, c3] at hw
          rw [← hw.2]
          decide
        · cases hd : defrag v.identification (v.fragment_offset * 8)
              (ipv4MF v) (ipv4Payload v) <;>
            simp [handle_l3_ipv4, c1, c2, c3, hd] at hw <;>
            rw [← hw.2] <;>
            by_cases c4 : v.total_length = 0 <;> simp [c4]

theorem c9_checksum_gating_witness :
    evtsOf (handle_l3_ipv4 true (fun _ => 0) (fun _ _ _ _ => Fragment.Error)
        2048 c6v)
      = evtsOf (handle_l3_ipv4 false (fun _ => 0)
          (fun _ _ _ _ => Fragment.Error) 2048 c6v) ∧
    (handle_l4_icmp true (fun _ => 1) ⟨8, 0, 0, []⟩).1
      = (handle_l4_icmp false (fun _ => 1) ⟨8, 0, 0, []⟩).1 ∧
    (handle_l4_icmp false (fun _ => 1) ⟨8, 0, 0, []⟩).2 = [] ∧
    handle_l4_icmpv6 true (fun _ => 1) true ⟨0, []⟩
      = handle_l4_icmpv6 false (fun _ => 1) true ⟨0, []⟩ ∧
    (∀ e w, handle_l3_ipv4 false (fun _ => 0) (fun _ _ _ _ => Fragment.Error)
        2048 c6v = .ok (e, w) → "IPv4: invalid checksum" ∉ w) :=
  c9_checksum_gating (fun _ => 0) (fun _ _ _ _ => Fragment.Error) 2048 c6v
    (fun _ => 1) ⟨8, 0, 0, []⟩ true false (fun _ => 1) true ⟨0, []⟩

/-- C10: the periodic sweep skips any stream stamped strictly in the
future of now, keeping it unchanged in the map (so the duration
subtraction only runs when now is at least last_seen_ts), and expires
(both peers Closed) any stream idle for more than the timeout. -/
theorem c10_sweep_future_guard (r : TcpStreamReassembly) (now : Nat)
    (id : Nat) (s : TcpStream) (hmem : (id, s) ∈ r.m) :
    (now < s.last_seen_ts →
      (id, s) ∈ (r.check_expired_connections now).m) ∧
    (s.last_seen_ts ≤ now → now - s.last_seen_ts > r.timeout →
      (id, s.expire) ∈ (r.check_expired_connections now).m ∧
      (s.expire).client.status = .Closed ∧
      (s.expire).server.status = .Closed) := by
  constructor
  · intro hf
    simp only [TcpStreamReassembly.check_expired_connections, List.mem_map]
    exact ⟨(id, s), hmem, by simp [checkExpiredStream, hf]⟩
  · intro hle hgt
    refine ⟨?_, rfl, rfl⟩
    simp only [TcpStreamReassembly.check_expired_connections, List.mem_map]
    refine ⟨(id, s), hmem, ?_⟩
    simp [checkExpiredStream, Nat.not_lt.mpr hle, hgt]

theorem c10_sweep_future_guard_witness :
    ((7, TcpStream.new 50)
        ∈ ({ m := [(7, TcpStream.new 50)], timeout := 120000000 }
          : TcpStreamReassembly).m) ∧
    ((10 < (TcpStream.new 50).last_seen_ts →
      (7, TcpStream.new 50)
        ∈ (({ m := [(7, TcpStream.new 50)], timeout := 120000000 }
          : TcpStreamReassembly).check_expired_connections 10).m) ∧
    ((TcpStream.new 50).last_seen_ts ≤ 10 →
      10 - (TcpStream.new 50).last_seen_ts
        > ({ m := [(7, TcpStream.new 50)], timeout := 120000000 }
          : TcpStreamReassembly).timeout →
      (7, (TcpStream.new 50).expire)
        ∈ (({ m := [(7, TcpStream.new 50)], timeout := 120000000 }
          : TcpStreamReassembly).check_expired_connections 10).m ∧
      ((TcpStream.new 50).expire).client.status = .Closed ∧
      ((TcpStream.new 50).expire).server.status = .Closed)) :=
  ⟨by decide,
    c10_sweep_future_guard
      { m := [(7, TcpStream.new 50)], timeout := 120000000 } 10 7
      (TcpStream.new 50) (by decide)⟩
